import Mathlib

/-!
Shallow embedding of the artifacts service (artifacts.service.ts) and the
system tool-usage value object (system-usage.entity.ts), together with
proofs of the specified properties of the artifact lifecycle, sharing and
serialization logic.
-/

/-- API error codes surfaced to callers. -/
inductive APIErrorCode where
  | NOT_FOUND
  | INVALID_INPUT
  deriving DecidableEq

/-- Structured API error with a code and a message. -/
structure APIError where
  code : APIErrorCode
  message : String
  deriving DecidableEq

/-- Modelled from the spec: a failing findOneOrFail lookup is surfaced as a
NotFound API error (the error entity and the global error handler are not
part of the sources). The same single error value is used at every lookup
site, matching the single findOneOrFail call site per operation. -/
def notFoundError : APIError :=
  { code := APIErrorCode.NOT_FOUND, message := "Not found" }

/-- The InvalidInput error thrown when the message does not belong to the
thread (artifacts.service.ts line 90). -/
def threadMessageMismatchError : APIError :=
  { code := APIErrorCode.INVALID_INPUT, message := "Thread message mismatch" }

/-- The InvalidInput error thrown for an unsupported artifact type
(artifacts.service.ts line 106). -/
def unsupportedTypeError : APIError :=
  { code := APIErrorCode.INVALID_INPUT, message := "Artifact type not supported" }

/-- Modelled from the spec: the artifact type discriminator enum currently
has the single variant APP and is documented as extensible (the entity file
is not among the sources); the `other` constructor stands for any future,
currently unhandled variant. -/
inductive ArtifactType where
  | APP
  | other (tag : String)
  deriving DecidableEq

/-- Open key-value metadata map. -/
abbrev Metadata := List (String × String)

/-- Modelled from the spec: the persisted artifact record (base fields plus
the APP subtype's sourceCode payload); the entity files are not among the
sources. createdAt is kept directly as a unix timestamp, and deletedAt is
the soft-delete marker. -/
structure Artifact where
  id : String
  type : ArtifactType
  threadId : String
  messageId : String
  metadata : Option Metadata
  name : Option String
  description : Option String
  accessSecret : Option String
  createdAt : Nat
  deletedAt : Option Nat
  sourceCode : Option String
  deriving DecidableEq

/-- Modelled from the spec: a conversation thread, reduced to its id. -/
structure Thread where
  id : String
  deriving DecidableEq

/-- Modelled from the spec: a message, reduced to its id and the id of the
thread it belongs to. -/
structure Message where
  id : String
  threadId : String
  deriving DecidableEq

/-- One character of the URL-safe base64 alphabet. -/
def b64Char (n : Nat) : Char :=
  if n < 26 then Char.ofNat (65 + n)
  else if n < 52 then Char.ofNat (97 + (n - 26))
  else if n < 62 then Char.ofNat (48 + (n - 52))
  else if n = 62 then '-'
  else '_'

/-- URL-safe base64 encoding without padding, as produced by Node's
Buffer.toString with the base64url encoding. -/
def base64urlEncode : List Nat → List Char
  | [] => []
  | [b1] => [b64Char (b1 / 4), b64Char (b1 % 4 * 16)]
  | [b1, b2] =>
      [b64Char (b1 / 4), b64Char (b1 % 4 * 16 + b2 / 16), b64Char (b2 % 16 * 4)]
  | b1 :: b2 :: b3 :: rest =>
      b64Char (b1 / 4) :: b64Char (b1 % 4 * 16 + b2 / 16) ::
        b64Char (b2 % 16 * 4 + b3 / 64) :: b64Char (b3 % 64) :: base64urlEncode rest

/-- Randomness source: the k-th call to crypto.randomBytes 24 yields these
24 bytes. Making the source and the draw index explicit turns the service's
use of randomness into deterministic state passing. -/
abbrev ByteSource := Nat → Fin 24 → Fin 256

/-- The 24 bytes of the k-th randomBytes draw, as plain naturals. -/
def randomBytes (src : ByteSource) (k : Nat) : List Nat :=
  (List.ofFn (src k)).map Fin.val

/-- getSecret from artifacts.service.ts: 24 random bytes in URL-safe base64
encoding. The draw index k makes the randomness state explicit. -/
def getSecret (src : ByteSource) (k : Nat) : String :=
  String.mk (base64urlEncode (randomBytes src k))

/-- The reduced shared DTO (no thread or message linkage). -/
structure ArtifactShared where
  id : String
  object : String
  type : ArtifactType
  metadata : Metadata
  created_at : Nat
  source_code : Option String
  share_url : String
  name : Option String
  description : String
  deriving DecidableEq

/-- The full artifact DTO: the shared shape plus the object tag and the
thread and message linkage. -/
structure ArtifactDto where
  id : String
  object : String
  type : ArtifactType
  metadata : Metadata
  created_at : Nat
  source_code : Option String
  share_url : String
  name : Option String
  description : String
  thread_id : String
  message_id : String
  deriving DecidableEq

/-- The dto object literal built at the top of toSharedDto
(artifacts.service.ts lines 59-71). The share_url condition mirrors the
JavaScript truthiness test on accessSecret: an empty-string secret is falsy
there, exactly like an absent one. -/
def sharedBase (a : Artifact) : ArtifactShared :=
  { id := a.id
    object := "artifact.shared"
    type := a.type
    metadata := a.metadata.getD []
    created_at := a.createdAt
    source_code := a.sourceCode
    share_url :=
      match a.accessSecret with
      | some s =>
          if s = "" then ""
          else "/v1/artifacts/" ++ a.id ++ "/shared?secret=" ++ s
      | none => ""
    name := a.name
    description := a.description.getD "" }

/-- toSharedDto from artifacts.service.ts: the switch on artifact.type has a
case only for APP and no default, so an unhandled type produces no DTO at
all (the TypeScript function runs off the end of the switch). -/
def toSharedDto (a : Artifact) : Option ArtifactShared :=
  match a.type with
  | ArtifactType.APP => some { sharedBase a with source_code := a.sourceCode }
  | ArtifactType.other _ => none

/-- toDto from artifacts.service.ts: spreads the shared DTO and adds the
object tag and the thread and message ids. -/
def toDto (a : Artifact) : Option ArtifactDto :=
  (toSharedDto a).map fun d =>
    { id := d.id
      object := "artifact"
      type := d.type
      metadata := d.metadata
      created_at := d.created_at
      source_code := d.source_code
      share_url := d.share_url
      name := d.name
      description := d.description
      thread_id := a.threadId
      message_id := a.messageId }

/-- Modelled from the spec: the persistence collaborator as in-memory lists,
with soft-deleted artifacts excluded from normal reads. rand is the index of
the next randomBytes draw, nextId feeds the id assigned at creation, and now
is the current clock reading. -/
structure St where
  threads : List Thread
  messages : List Message
  artifacts : List Artifact
  rand : Nat
  nextId : Nat
  now : Nat
  deriving DecidableEq

/-- Modelled from the spec: a unique identifier is assigned at creation. -/
def mkArtifactId (n : Nat) : String := "art_" ++ toString n

/-- findOneOrFail on the Thread repository, as an Option. -/
def findThread (s : St) (id : String) : Option Thread :=
  s.threads.find? fun t => t.id == id

/-- findOneOrFail on the Message repository, as an Option. -/
def findMessage (s : St) (id : String) : Option Message :=
  s.messages.find? fun m => m.id == id

/-- A live (not soft-deleted) artifact with the given id: the filter applied
by every normal artifact lookup. -/
def livePred (id : String) (a : Artifact) : Bool :=
  a.id == id && a.deletedAt == none

/-- findOneOrFail on the Artifact repository by id, excluding soft-deleted
records. -/
def findArtifact (s : St) (id : String) : Option Artifact :=
  s.artifacts.find? (livePred id)

/-- The create request body. Option marks a field absent from the request. -/
structure ArtifactCreateBody where
  thread_id : String
  message_id : String
  type : ArtifactType
  source_code : Option String
  metadata : Option Metadata
  shared : Option Bool
  name : Option String
  description : Option String
  deriving DecidableEq

/-- The new AppArtifact record built by createArtifact
(artifacts.service.ts lines 94-102): a fresh access secret is drawn exactly
when the request says shared is true. -/
def newAppArtifact (src : ByteSource) (body : ArtifactCreateBody) (s : St)
    (thread : Thread) (message : Message) : Artifact :=
  { id := mkArtifactId s.nextId
    type := ArtifactType.APP
    threadId := thread.id
    messageId := message.id
    metadata := body.metadata
    name := body.name
    description := body.description
    accessSecret :=
      if body.shared = some true then some (getSecret src s.rand) else none
    createdAt := s.now
    deletedAt := none
    sourceCode := body.source_code }

/-- createArtifact from artifacts.service.ts: loads the thread and the
message, rejects a thread and message mismatch with InvalidInput, and for
the APP type persists a new artifact, drawing a fresh access secret exactly
when shared is true; any other type is rejected with InvalidInput. -/
def createArtifact (src : ByteSource) (body : ArtifactCreateBody) (s : St) :
    Except APIError (Option ArtifactDto) × St :=
  match findThread s body.thread_id with
  | none => (Except.error notFoundError, s)
  | some thread =>
    match findMessage s body.message_id with
    | none => (Except.error notFoundError, s)
    | some message =>
      if message.threadId ≠ thread.id then
        (Except.error threadMessageMismatchError, s)
      else
        match body.type with
        | ArtifactType.APP =>
          let a : Artifact := newAppArtifact src body s thread message
          (Except.ok (toDto a),
            { s with
                artifacts := s.artifacts ++ [a]
                nextId := s.nextId + 1
                rand := if body.shared = some true then s.rand + 1 else s.rand })
        | ArtifactType.other _ => (Except.error unsupportedTypeError, s)

/-- readArtifact from artifacts.service.ts. -/
def readArtifact (artifact_id : String) (s : St) :
    Except APIError (Option ArtifactDto) :=
  match findArtifact s artifact_id with
  | none => Except.error notFoundError
  | some a => Except.ok (toDto a)

/-- The single findOneOrFail condition of readSharedArtifact: id and stored
accessSecret must both match (and the record must not be soft-deleted). -/
def sharedPred (artifact_id secret : String) (a : Artifact) : Bool :=
  a.id == artifact_id && a.accessSecret == some secret && a.deletedAt == none

/-- readSharedArtifact from artifacts.service.ts: one lookup keyed on both
the id and the supplied secret, so a missing artifact and a wrong secret
fail identically. -/
def readSharedArtifact (artifact_id secret : String) (s : St) :
    Except APIError (Option ArtifactShared) :=
  match s.artifacts.find? (sharedPred artifact_id secret) with
  | none => Except.error notFoundError
  | some a => Except.ok (toSharedDto a)

/-- The update request. Option marks a field absent from the request. -/
structure ArtifactUpdateRequest where
  artifact_id : String
  metadata : Option Metadata
  name : Option String
  description : Option String
  shared : Option Bool
  deriving DecidableEq

/-- Modelled from the spec: the getUpdatedValue helper of utils/update
treats an absent update value as a no-op and otherwise takes the new
value. -/
def getUpdatedValue {α : Type} (update current : Option α) : Option α :=
  match update with
  | some v => some v
  | none => current

/-- The shared branch of updateArtifact (lines 146-150): true draws a fresh
secret, false clears it, absent leaves it untouched. -/
def sharedSecretUpdate (src : ByteSource) (k : Nat) (sh : Option Bool)
    (cur : Option String) : Option String :=
  match sh with
  | some true => some (getSecret src k)
  | some false => none
  | none => cur

/-- The field mutations updateArtifact performs on the loaded entity. -/
def applyUpdate (src : ByteSource) (r : ArtifactUpdateRequest) (k : Nat)
    (a : Artifact) : Artifact :=
  { a with
      metadata := getUpdatedValue r.metadata a.metadata
      name := getUpdatedValue r.name a.name
      description := getUpdatedValue r.description a.description
      accessSecret := sharedSecretUpdate src k r.shared a.accessSecret }

/-- updateArtifact from artifacts.service.ts: loads the live artifact,
applies the partial update, flushes, and returns the full DTO. -/
def updateArtifact (src : ByteSource) (r : ArtifactUpdateRequest) (s : St) :
    Except APIError (Option ArtifactDto) × St :=
  match findArtifact s r.artifact_id with
  | none => (Except.error notFoundError, s)
  | some a =>
    (Except.ok (toDto (applyUpdate src r s.rand a)),
      { s with
          artifacts := s.artifacts.map fun x =>
            if livePred r.artifact_id x then applyUpdate src r s.rand x else x
          rand := if r.shared = some true then s.rand + 1 else s.rand })

/-- The deletion confirmation record. -/
structure DeleteResponse where
  id : String
  object : String
  deleted : Bool
  deriving DecidableEq

/-- Modelled from the spec: the generic delete-confirmation builder of
utils/delete, referencing the id and the resource kind. -/
def createDeleteResponse (id kind : String) : DeleteResponse :=
  { id := id, object := kind, deleted := true }

/-- Modelled from the spec: Artifact.delete marks the soft-delete timestamp
without erasing the record. -/
def softDelete (now : Nat) (a : Artifact) : Artifact :=
  { a with deletedAt := some now }

/-- deleteArtifact from artifacts.service.ts: loads the live artifact,
soft-deletes it, flushes, and returns the deletion confirmation. -/
def deleteArtifact (artifact_id : String) (s : St) :
    Except APIError DeleteResponse × St :=
  match findArtifact s artifact_id with
  | none => (Except.error notFoundError, s)
  | some _ =>
    (Except.ok (createDeleteResponse artifact_id "artifact"),
      { s with
          artifacts := s.artifacts.map fun x =>
            if livePred artifact_id x then softDelete s.now x else x })

/-- Modelled from the spec: the tool-type discriminator enum; SYSTEM plus
sibling usage kinds of the owning aggregate (the tool entity file is not
among the sources). -/
inductive ToolType where
  | SYSTEM
  | other (tag : String)
  deriving DecidableEq

/-- Modelled from the spec: the enum of system tool kinds (the system-call
entity file is not among the sources), kept abstract as its name. -/
abbrev SystemTools := String

/-- An arbitrary structured JSON-like blob, for the open-ended config. -/
inductive JsonValue where
  | null
  | bool (b : Bool)
  | num (n : Int)
  | str (s : String)
  | arr (elems : List JsonValue)
  | obj (fields : List (String × JsonValue))

/-- The constructor input of SystemUsage: toolId and config. -/
structure SystemUsageInput where
  toolId : SystemTools
  config : Option JsonValue

/-- The SystemUsage embeddable value object. -/
structure SystemUsage where
  type : ToolType
  toolId : SystemTools
  config : Option JsonValue

/-- The SystemUsage constructor from system-usage.entity.ts: sets the SYSTEM
discriminator and stores the given toolId and config. -/
def SystemUsage.make (input : SystemUsageInput) : SystemUsage :=
  { type := ToolType.SYSTEM, toolId := input.toolId, config := input.config }

/-! ### Helper lemmas -/

theorem livePred_iff (id : String) (a : Artifact) :
    livePred id a = true ↔ a.id = id ∧ a.deletedAt = none := by
  simp [livePred]

theorem sharedPred_iff (artifact_id secret : String) (a : Artifact) :
    sharedPred artifact_id secret a = true ↔
      a.id = artifact_id ∧ a.accessSecret = some secret ∧ a.deletedAt = none := by
  simp [sharedPred, and_assoc]

theorem toSharedDto_app (a : Artifact) (h : a.type = ArtifactType.APP) :
    toSharedDto a = some { sharedBase a with source_code := a.sourceCode } := by
  unfold toSharedDto
  rw [h]

theorem applyUpdate_livePred (src : ByteSource) (r : ArtifactUpdateRequest)
    (k : Nat) (id : String) (x : Artifact) :
    livePred id (applyUpdate src r k x) = livePred id x := rfl

theorem find?_map_cond {α : Type} (f : α → α) (q : α → Bool)
    (hq : ∀ x, q (f x) = q x) (l : List α) :
    (l.map fun x => if q x then f x else x).find? q = (l.find? q).map f := by
  induction l with
  | nil => rfl
  | cons x xs ih =>
    by_cases hx : q x = true
    · simp [List.find?_cons, hx, hq x]
    · simp only [List.map_cons, if_neg hx, List.find?_cons, ih]
      rw [Bool.not_eq_true] at hx
      rw [hx]

theorem map_eq_self_of_id {α : Type} (f : α → α) (l : List α)
    (h : ∀ x ∈ l, f x = x) : l.map f = l := by
  induction l with
  | nil => rfl
  | cons x xs ih =>
    rw [List.map_cons, h x (List.mem_cons_self x xs),
      ih fun y hy => h y (List.mem_cons_of_mem x hy)]

theorem append_ne_empty_left (s t : String) (hs : s ≠ "") : s ++ t ≠ "" := by
  intro hc
  have hd : s.data ++ t.data = [] := by
    have := String.ext_iff.mp hc
    rwa [String.data_append] at this
  exact hs (String.ext_iff.mpr (List.append_eq_nil.mp hd).1)

theorem base64urlEncode_ne_nil (l : List Nat) (h : l ≠ []) :
    base64urlEncode l ≠ [] := by
  match l with
  | [] => exact absurd rfl h
  | [b1] => simp [base64urlEncode]
  | [b1, b2] => simp [base64urlEncode]
  | b1 :: b2 :: b3 :: rest => simp [base64urlEncode]

theorem randomBytes_length (src : ByteSource) (k : Nat) :
    (randomBytes src k).length = 24 := by
  simp [randomBytes]

theorem getSecret_ne_empty (src : ByteSource) (k : Nat) : getSecret src k ≠ "" := by
  have h1 : randomBytes src k ≠ [] := by
    intro hc
    have h2 := randomBytes_length src k
    rw [hc] at h2
    simp at h2
  intro hc
  exact base64urlEncode_ne_nil _ h1 (String.ext_iff.mp hc)

/-- There is a live artifact with the requested id whose stored accessSecret
equals the supplied secret. -/
def hasSharedMatch (s : St) (artifact_id secret : String) : Prop :=
  ∃ a ∈ s.artifacts,
    a.id = artifact_id ∧ a.accessSecret = some secret ∧ a.deletedAt = none

instance decHasSharedMatch (s : St) (artifact_id secret : String) :
    Decidable (hasSharedMatch s artifact_id secret) := by
  unfold hasSharedMatch
  infer_instance

/-! ### Shared fixtures for the concrete witnesses -/

/-- A concrete randomness source: every byte of draw k is k mod 256. -/
def wSrc : ByteSource := fun k _ => ⟨k % 256, Nat.mod_lt _ (by decide)⟩

/-- A concrete shared APP artifact. -/
def wArtifact : Artifact :=
  { id := "art_0"
    type := ArtifactType.APP
    threadId := "t1"
    messageId := "m1"
    metadata := none
    name := none
    description := none
    accessSecret := some "s3cr3t"
    createdAt := 0
    deletedAt := none
    sourceCode := some "print(1)" }

/-- A concrete service state holding one thread, one message and one
artifact. -/
def wSt : St :=
  { threads := [{ id := "t1" }]
    messages := [{ id := "m1", threadId := "t1" }]
    artifacts := [wArtifact]
    rand := 0
    nextId := 1
    now := 5 }

/-! ### Claim theorems -/

/-- Claim C1: readSharedArtifact succeeds exactly when some live artifact
carries the requested id and the supplied secret as its current
accessSecret; every failure, a wrong secret and a missing artifact alike,
is the one NotFound error, so the two cases are indistinguishable. -/
theorem readSharedArtifact_secret_gate (s : St) (artifact_id secret : String)
    (hAPP : ∀ a ∈ s.artifacts, a.type = ArtifactType.APP) :
    ((∃ d, readSharedArtifact artifact_id secret s = Except.ok (some d)) ↔
      hasSharedMatch s artifact_id secret) ∧
    (¬ hasSharedMatch s artifact_id secret →
      readSharedArtifact artifact_id secret s = Except.error notFoundError) := by
  constructor
  · constructor
    · rintro ⟨d, hd⟩
      unfold readSharedArtifact at hd
      cases hfind : s.artifacts.find? (sharedPred artifact_id secret) with
      | none => rw [hfind] at hd; exact absurd hd (by simp)
      | some a =>
        rw [hfind] at hd
        exact ⟨a, List.mem_of_find?_eq_some hfind,
          (sharedPred_iff _ _ _).mp (List.find?_some hfind)⟩
    · rintro ⟨a, hmem, hprop⟩
      unfold readSharedArtifact
      cases hfind : s.artifacts.find? (sharedPred artifact_id secret) with
      | none =>
        exact absurd ((sharedPred_iff _ _ _).mpr hprop)
          (List.find?_eq_none.mp hfind a hmem)
      | some b =>
        have hb := toSharedDto_app b (hAPP b (List.mem_of_find?_eq_some hfind))
        refine ⟨{ sharedBase b with source_code := b.sourceCode }, ?_⟩
        show Except.ok (toSharedDto b) = _
        rw [hb]
  · intro hn
    unfold readSharedArtifact
    cases hfind : s.artifacts.find? (sharedPred artifact_id secret) with
    | none => rfl
    | some a =>
      exact absurd ⟨a, List.mem_of_find?_eq_some hfind,
        (sharedPred_iff _ _ _).mp (List.find?_some hfind)⟩ hn

/-- Witness for C1 at a concrete state and secret. -/
theorem readSharedArtifact_secret_gate_holds :
    (∀ a ∈ wSt.artifacts, a.type = ArtifactType.APP) ∧
    (((∃ d, readSharedArtifact "art_0" "s3cr3t" wSt = Except.ok (some d)) ↔
      hasSharedMatch wSt "art_0" "s3cr3t") ∧
    (¬ hasSharedMatch wSt "art_0" "s3cr3t" →
      readSharedArtifact "art_0" "s3cr3t" wSt = Except.error notFoundError)) :=
  ⟨by decide, readSharedArtifact_secret_gate wSt "art_0" "s3cr3t" (by decide)⟩

/-- Claim C2: serializing an artifact of an unhandled type (anything other
than APP) produces no DTO at all: the switch has no default, so there is no
base-shape fallback. -/
theorem toSharedDto_unhandled_none (a : Artifact)
    (h : a.type ≠ ArtifactType.APP) : toSharedDto a = none := by
  unfold toSharedDto
  cases ht : a.type with
  | APP => exact absurd ht h
  | other tag => rfl

/-- Witness for C2 at a concrete artifact of an unhandled type. -/
theorem toSharedDto_unhandled_none_holds :
    ({ wArtifact with type := ArtifactType.other "image" } : Artifact).type ≠
      ArtifactType.APP ∧
    toSharedDto { wArtifact with type := ArtifactType.other "image" } = none :=
  ⟨by decide,
    toSharedDto_unhandled_none { wArtifact with type := ArtifactType.other "image" }
      (by decide)⟩

/-- Claim C9: constructing a SystemUsage from toolId and config is pure data
construction: the discriminator is SYSTEM and the given toolId and config
are carried unchanged. -/
theorem systemUsage_pure_construction (input : SystemUsageInput) :
    (SystemUsage.make input).type = ToolType.SYSTEM ∧
    (SystemUsage.make input).toolId = input.toolId ∧
    (SystemUsage.make input).config = input.config :=
  ⟨rfl, rfl, rfl⟩

theorem updateArtifact_found (src : ByteSource) (r : ArtifactUpdateRequest)
    (s : St) (a : Artifact) (hfind : findArtifact s r.artifact_id = some a) :
    updateArtifact src r s =
      (Except.ok (toDto (applyUpdate src r s.rand a)),
        { s with
            artifacts := s.artifacts.map fun x =>
              if livePred r.artifact_id x then applyUpdate src r s.rand x else x
            rand := if r.shared = some true then s.rand + 1 else s.rand }) := by
  unfold updateArtifact
  rw [hfind]

theorem updateArtifact_find_after (src : ByteSource) (r : ArtifactUpdateRequest)
    (s : St) (a : Artifact) (hfind : findArtifact s r.artifact_id = some a) :
    findArtifact (updateArtifact src r s).2 r.artifact_id =
      some (applyUpdate src r s.rand a) := by
  rw [updateArtifact_found src r s a hfind]
  show (s.artifacts.map fun x =>
      if livePred r.artifact_id x then applyUpdate src r s.rand x else x).find?
      (livePred r.artifact_id) = some (applyUpdate src r s.rand a)
  rw [find?_map_cond (applyUpdate src r s.rand) (livePred r.artifact_id)
    (fun x => applyUpdate_livePred src r s.rand r.artifact_id x) s.artifacts]
  unfold findArtifact at hfind
  rw [hfind]
  rfl

theorem updateArtifact_rand_after (src : ByteSource) (r : ArtifactUpdateRequest)
    (s : St) (a : Artifact) (hfind : findArtifact s r.artifact_id = some a) :
    (updateArtifact src r s).2.rand =
      if r.shared = some true then s.rand + 1 else s.rand := by
  rw [updateArtifact_found src r s a hfind]

/-- Claim C3: updateArtifact with shared true stores the freshly drawn
secret and advances the randomness state so a draw is never reused; with
shared false it clears the secret; with shared omitted it leaves the secret
exactly as it was; and two successive shared-true updates, whose draws are
distinct, store two different secrets. -/
theorem updateArtifact_shared_rotation (src : ByteSource) (s : St) (id : String)
    (a : Artifact) (m : Option Metadata) (n d : Option String)
    (hfind : findArtifact s id = some a)
    (hdraw : getSecret src s.rand ≠ getSecret src (s.rand + 1)) :
    (∃ a1, findArtifact (updateArtifact src ⟨id, m, n, d, some true⟩ s).2 id =
        some a1 ∧
      a1.accessSecret = some (getSecret src s.rand) ∧
      (updateArtifact src ⟨id, m, n, d, some true⟩ s).2.rand = s.rand + 1) ∧
    (∃ a1, findArtifact (updateArtifact src ⟨id, m, n, d, some false⟩ s).2 id =
        some a1 ∧
      a1.accessSecret = none) ∧
    (∃ a1, findArtifact (updateArtifact src ⟨id, m, n, d, none⟩ s).2 id =
        some a1 ∧
      a1.accessSecret = a.accessSecret) ∧
    (∃ a1 a2,
      findArtifact (updateArtifact src ⟨id, m, n, d, some true⟩ s).2 id =
        some a1 ∧
      findArtifact (updateArtifact src ⟨id, m, n, d, some true⟩
          (updateArtifact src ⟨id, m, n, d, some true⟩ s).2).2 id = some a2 ∧
      a1.accessSecret = some (getSecret src s.rand) ∧
      a2.accessSecret = some (getSecret src (s.rand + 1)) ∧
      a1.accessSecret ≠ a2.accessSecret) := by
  have h1 := updateArtifact_find_after src ⟨id, m, n, d, some true⟩ s a hfind
  have hr1 : (updateArtifact src ⟨id, m, n, d, some true⟩ s).2.rand = s.rand + 1 := by
    rw [updateArtifact_rand_after src ⟨id, m, n, d, some true⟩ s a hfind]
    rfl
  have h2 := updateArtifact_find_after src ⟨id, m, n, d, some true⟩
    (updateArtifact src ⟨id, m, n, d, some true⟩ s).2
    (applyUpdate src ⟨id, m, n, d, some true⟩ s.rand a) h1
  have ha2 : (applyUpdate src ⟨id, m, n, d, some true⟩
      (updateArtifact src ⟨id, m, n, d, some true⟩ s).2.rand
      (applyUpdate src ⟨id, m, n, d, some true⟩ s.rand a)).accessSecret =
      some (getSecret src (s.rand + 1)) := by
    rw [show (applyUpdate src ⟨id, m, n, d, some true⟩
        (updateArtifact src ⟨id, m, n, d, some true⟩ s).2.rand
        (applyUpdate src ⟨id, m, n, d, some true⟩ s.rand a)).accessSecret =
        some (getSecret src
          (updateArtifact src ⟨id, m, n, d, some true⟩ s).2.rand) from rfl, hr1]
  refine ⟨⟨_, h1, rfl, hr1⟩,
    ⟨_, updateArtifact_find_after src ⟨id, m, n, d, some false⟩ s a hfind, rfl⟩,
    ⟨_, updateArtifact_find_after src ⟨id, m, n, d, none⟩ s a hfind, rfl⟩,
    _, _, h1, h2, rfl, ha2, ?_⟩
  rw [show (applyUpdate src ⟨id, m, n, d, some true⟩ s.rand a).accessSecret =
    some (getSecret src s.rand) from rfl, ha2]
  intro hc
  exact hdraw (Option.some.inj hc)

/-- Witness for C3 at a concrete source, state and artifact. -/
theorem updateArtifact_shared_rotation_holds :
    (findArtifact wSt "art_0" = some wArtifact ∧
      getSecret wSrc 0 ≠ getSecret wSrc 1) ∧
    ((∃ a1, findArtifact
        (updateArtifact wSrc ⟨"art_0", none, none, none, some true⟩ wSt).2
        "art_0" = some a1 ∧
      a1.accessSecret = some (getSecret wSrc 0) ∧
      (updateArtifact wSrc ⟨"art_0", none, none, none, some true⟩ wSt).2.rand =
        0 + 1) ∧
    (∃ a1, findArtifact
        (updateArtifact wSrc ⟨"art_0", none, none, none, some false⟩ wSt).2
        "art_0" = some a1 ∧
      a1.accessSecret = none) ∧
    (∃ a1, findArtifact
        (updateArtifact wSrc ⟨"art_0", none, none, none, none⟩ wSt).2
        "art_0" = some a1 ∧
      a1.accessSecret = wArtifact.accessSecret) ∧
    (∃ a1 a2,
      findArtifact
        (updateArtifact wSrc ⟨"art_0", none, none, none, some true⟩ wSt).2
        "art_0" = some a1 ∧
      findArtifact (updateArtifact wSrc ⟨"art_0", none, none, none, some true⟩
          (updateArtifact wSrc ⟨"art_0", none, none, none, some true⟩ wSt).2).2
        "art_0" = some a2 ∧
      a1.accessSecret = some (getSecret wSrc 0) ∧
      a2.accessSecret = some (getSecret wSrc (0 + 1)) ∧
      a1.accessSecret ≠ a2.accessSecret)) :=
  ⟨⟨by decide, by decide⟩,
    updateArtifact_shared_rotation wSrc wSt "art_0" wArtifact none none none
      (by decide) (by decide)⟩

/-- Claim C4: for an existing thread and an existing message that does not
belong to it, createArtifact fails with the InvalidInput mismatch error and
leaves the state untouched. -/
theorem createArtifact_thread_message_mismatch (src : ByteSource)
    (body : ArtifactCreateBody) (s : St) (t : Thread) (msg : Message)
    (hthread : findThread s body.thread_id = some t)
    (hmsg : findMessage s body.message_id = some msg)
    (hmm : msg.threadId ≠ t.id) :
    createArtifact src body s = (Except.error threadMessageMismatchError, s) ∧
    threadMessageMismatchError.code = APIErrorCode.INVALID_INPUT := by
  refine ⟨?_, rfl⟩
  unfold createArtifact
  rw [hthread, hmsg]
  simp [hmm]

/-- A create request whose message belongs to a different thread. -/
def wBadBody : ArtifactCreateBody :=
  { thread_id := "t1"
    message_id := "m9"
    type := ArtifactType.APP
    source_code := some "x"
    metadata := none
    shared := none
    name := none
    description := none }

/-- wSt extended with a message that belongs to thread t2. -/
def wStMix : St :=
  { wSt with messages := wSt.messages ++ [{ id := "m9", threadId := "t2" }] }

/-- Witness for C4 at a concrete mismatching thread and message pair. -/
theorem createArtifact_thread_message_mismatch_holds :
    (findThread wStMix "t1" = some { id := "t1" } ∧
      findMessage wStMix "m9" = some { id := "m9", threadId := "t2" } ∧
      ("t2" : String) ≠ "t1") ∧
    (createArtifact wSrc wBadBody wStMix =
        (Except.error threadMessageMismatchError, wStMix) ∧
      threadMessageMismatchError.code = APIErrorCode.INVALID_INPUT) :=
  ⟨⟨by decide, by decide, by decide⟩,
    createArtifact_thread_message_mismatch wSrc wBadBody wStMix
      { id := "t1" } { id := "m9", threadId := "t2" }
      (by decide) (by decide) (by decide)⟩

/-- Claim C5: updateArtifact changes only the fields explicitly provided;
every omitted field keeps its prior value, the identity and linkage fields
never change, and the all-fields-omitted update is a no-op returning exactly
what a read returns, with the state unchanged. -/
theorem updateArtifact_partial_frame (src : ByteSource) (s : St) (id : String)
    (a : Artifact) (m : Option Metadata) (n d : Option String)
    (sh : Option Bool) (hfind : findArtifact s id = some a) :
    (∃ a1, findArtifact (updateArtifact src ⟨id, m, n, d, sh⟩ s).2 id =
        some a1 ∧
      a1.id = a.id ∧ a1.type = a.type ∧ a1.threadId = a.threadId ∧
      a1.messageId = a.messageId ∧ a1.createdAt = a.createdAt ∧
      a1.deletedAt = a.deletedAt ∧ a1.sourceCode = a.sourceCode ∧
      (m = none → a1.metadata = a.metadata) ∧
      (n = none → a1.name = a.name) ∧
      (d = none → a1.description = a.description) ∧
      (sh = none → a1.accessSecret = a.accessSecret)) ∧
    updateArtifact src ⟨id, none, none, none, none⟩ s = (readArtifact id s, s) ∧
    readArtifact id s = Except.ok (toDto a) := by
  have happ : ∀ x : Artifact,
      applyUpdate src ⟨id, none, none, none, none⟩ s.rand x = x := fun x => rfl
  refine ⟨⟨applyUpdate src ⟨id, m, n, d, sh⟩ s.rand a,
    updateArtifact_find_after src ⟨id, m, n, d, sh⟩ s a hfind,
    rfl, rfl, rfl, rfl, rfl, rfl, rfl,
    fun hm => by subst hm; rfl,
    fun hn => by subst hn; rfl,
    fun hd => by subst hd; rfl,
    fun hs => by subst hs; rfl⟩, ?_, ?_⟩
  · rw [updateArtifact_found src ⟨id, none, none, none, none⟩ s a hfind]
    have hmap : (s.artifacts.map fun x =>
        if livePred id x then applyUpdate src ⟨id, none, none, none, none⟩ s.rand x
        else x) = s.artifacts := by
      apply map_eq_self_of_id
      intro x hx
      by_cases hq : livePred id x = true
      · rw [if_pos hq, happ x]
      · rw [if_neg hq]
    refine Prod.ext ?_ ?_
    · show Except.ok (toDto a) = readArtifact id s
      simp only [readArtifact, hfind]
    · exact congrArg (fun l => { s with artifacts := l }) hmap
  · simp only [readArtifact, hfind]

/-- Witness for C5 at a concrete state: one provided field, three omitted,
and the empty update. -/
theorem updateArtifact_partial_frame_holds :
    findArtifact wSt "art_0" = some wArtifact ∧
    ((∃ a1, findArtifact (updateArtifact wSrc
        ⟨"art_0", some [("k", "v")], none, none, none⟩ wSt).2 "art_0" =
        some a1 ∧
      a1.id = wArtifact.id ∧ a1.type = wArtifact.type ∧
      a1.threadId = wArtifact.threadId ∧
      a1.messageId = wArtifact.messageId ∧ a1.createdAt = wArtifact.createdAt ∧
      a1.deletedAt = wArtifact.deletedAt ∧ a1.sourceCode = wArtifact.sourceCode ∧
      (some [("k", "v")] = (none : Option Metadata) →
        a1.metadata = wArtifact.metadata) ∧
      ((none : Option String) = none → a1.name = wArtifact.name) ∧
      ((none : Option String) = none → a1.description = wArtifact.description) ∧
      ((none : Option Bool) = none → a1.accessSecret = wArtifact.accessSecret)) ∧
    updateArtifact wSrc ⟨"art_0", none, none, none, none⟩ wSt =
      (readArtifact "art_0" wSt, wSt) ∧
    readArtifact "art_0" wSt = Except.ok (toDto wArtifact)) :=
  ⟨by decide, updateArtifact_partial_frame wSrc wSt "art_0" wArtifact
    (some [("k", "v")]) none none none (by decide)⟩

theorem createArtifact_app_eq (src : ByteSource) (body : ArtifactCreateBody)
    (s : St) (t : Thread) (msg : Message)
    (hthread : findThread s body.thread_id = some t)
    (hmsg : findMessage s body.message_id = some msg)
    (hmatch : msg.threadId = t.id)
    (htype : body.type = ArtifactType.APP) :
    createArtifact src body s =
      (Except.ok (toDto (newAppArtifact src body s t msg)),
        { s with
            artifacts := s.artifacts ++ [newAppArtifact src body s t msg]
            nextId := s.nextId + 1
            rand := if body.shared = some true then s.rand + 1 else s.rand }) := by
  have hne : ¬ msg.threadId ≠ t.id := fun hc => hc hmatch
  simp only [createArtifact, hthread, hmsg, htype]
  rw [if_neg hne]

/-- Claim C6: creating with shared true draws a fresh secret, being the
URL-safe base64 encoding of 24 drawn random bytes, stores it on the
persisted artifact, advances the randomness state, and returns a DTO whose
non-empty share_url contains that secret; creating with shared false or
omitted returns a DTO whose share_url is the empty string. -/
theorem createArtifact_share_url_secret (src : ByteSource)
    (body : ArtifactCreateBody) (s : St) (t : Thread) (msg : Message)
    (hthread : findThread s body.thread_id = some t)
    (hmsg : findMessage s body.message_id = some msg)
    (hmatch : msg.threadId = t.id)
    (htype : body.type = ArtifactType.APP) :
    (body.shared = some true →
      ∃ dto, (createArtifact src body s).1 = Except.ok (some dto) ∧
        dto.share_url ≠ "" ∧
        (∃ u v, dto.share_url = u ++ getSecret src s.rand ++ v) ∧
        (∃ bytes, bytes.length = 24 ∧
          getSecret src s.rand = String.mk (base64urlEncode bytes)) ∧
        (∃ a ∈ (createArtifact src body s).2.artifacts,
          a.accessSecret = some (getSecret src s.rand)) ∧
        (createArtifact src body s).2.rand = s.rand + 1) ∧
    (body.shared = some false ∨ body.shared = none →
      ∃ dto, (createArtifact src body s).1 = Except.ok (some dto) ∧
        dto.share_url = "") := by
  have heq := createArtifact_app_eq src body s t msg hthread hmsg hmatch htype
  constructor
  · intro hsh
    have hacc : (newAppArtifact src body s t msg).accessSecret =
        some (getSecret src s.rand) := by
      simp [newAppArtifact, hsh]
    refine ⟨{ id := mkArtifactId s.nextId, object := "artifact",
              type := ArtifactType.APP, metadata := body.metadata.getD [],
              created_at := s.now, source_code := body.source_code,
              share_url := "/v1/artifacts/" ++ mkArtifactId s.nextId ++
                "/shared?secret=" ++ getSecret src s.rand,
              name := body.name, description := body.description.getD "",
              thread_id := t.id, message_id := msg.id },
      ?_, ?_, ?_, ?_, ?_, ?_⟩
    · simp only [heq]
      simp [toDto, toSharedDto, sharedBase, newAppArtifact, hsh,
        getSecret_ne_empty src s.rand]
    · exact append_ne_empty_left _ _ (append_ne_empty_left _ _
        (append_ne_empty_left _ _ (by decide)))
    · refine ⟨"/v1/artifacts/" ++ mkArtifactId s.nextId ++ "/shared?secret=",
        "", ?_⟩
      simp
    · exact ⟨randomBytes src s.rand, randomBytes_length src s.rand, rfl⟩
    · simp only [heq]
      exact ⟨newAppArtifact src body s t msg, by simp, hacc⟩
    · simp only [heq]
      simp [hsh]
  · intro hsh
    refine ⟨{ id := mkArtifactId s.nextId, object := "artifact",
              type := ArtifactType.APP, metadata := body.metadata.getD [],
              created_at := s.now, source_code := body.source_code,
              share_url := "", name := body.name,
              description := body.description.getD "",
              thread_id := t.id, message_id := msg.id },
      ?_, rfl⟩
    simp only [heq]
    rcases hsh with hsh | hsh <;>
      simp [toDto, toSharedDto, sharedBase, newAppArtifact, hsh]

/-- A create request for a matching thread and message with sharing on. -/
def wGoodBody : ArtifactCreateBody :=
  { thread_id := "t1"
    message_id := "m1"
    type := ArtifactType.APP
    source_code := some "print(1)"
    metadata := none
    shared := some true
    name := none
    description := none }

/-- Witness for C6 at a concrete request with sharing on. -/
theorem createArtifact_share_url_secret_holds :
    (findThread wSt "t1" = some { id := "t1" } ∧
      findMessage wSt "m1" = some { id := "m1", threadId := "t1" } ∧
      ("t1" : String) = "t1" ∧ wGoodBody.type = ArtifactType.APP) ∧
    ((wGoodBody.shared = some true →
      ∃ dto, (createArtifact wSrc wGoodBody wSt).1 = Except.ok (some dto) ∧
        dto.share_url ≠ "" ∧
        (∃ u v, dto.share_url = u ++ getSecret wSrc 0 ++ v) ∧
        (∃ bytes, bytes.length = 24 ∧
          getSecret wSrc 0 = String.mk (base64urlEncode bytes)) ∧
        (∃ a ∈ (createArtifact wSrc wGoodBody wSt).2.artifacts,
          a.accessSecret = some (getSecret wSrc 0)) ∧
        (createArtifact wSrc wGoodBody wSt).2.rand = 0 + 1) ∧
    (wGoodBody.shared = some false ∨ wGoodBody.shared = none →
      ∃ dto, (createArtifact wSrc wGoodBody wSt).1 = Except.ok (some dto) ∧
        dto.share_url = "")) :=
  ⟨⟨by decide, by decide, rfl, by decide⟩,
    createArtifact_share_url_secret wSrc wGoodBody wSt
      { id := "t1" } { id := "m1", threadId := "t1" }
      (by decide) (by decide) (by decide) (by decide)⟩

theorem toSharedDto_eq_base (a : Artifact) (dto : ArtifactShared)
    (h : toSharedDto a = some dto) :
    dto = { sharedBase a with source_code := a.sourceCode } := by
  unfold toSharedDto at h
  cases ht : a.type with
  | APP =>
    rw [ht] at h
    exact (Option.some.inj h).symm
  | other tag =>
    rw [ht] at h
    exact absurd h (by simp)

/-- An APP artifact whose accessSecret is present but empty: JavaScript
truthiness makes toSharedDto treat it exactly like an absent secret. -/
def emptySecretArtifact : Artifact :=
  { wArtifact with accessSecret := some "" }

/-- Counterexample to claim C7 as stated: this artifact's accessSecret is
present, yet the produced share_url is the empty string, not the derived
path containing the id and the (empty) secret. -/
theorem toSharedDto_share_url_empty_secret_cex :
    emptySecretArtifact.accessSecret = some "" ∧
    (toSharedDto emptySecretArtifact).map ArtifactShared.share_url = some "" ∧
    some "" ≠ some ("/v1/artifacts/" ++ emptySecretArtifact.id ++
      "/shared?secret=" ++ "") := by
  decide

/-- Claim C7 amended: the share_url of the shared DTO, and equally of the
full DTO, is derived deterministically as the path containing the artifact
id and the current secret whenever accessSecret is present and non-empty,
and is the empty string when accessSecret is absent or empty (the source
tests truthiness, under which an empty-string secret counts as absent). -/
theorem toSharedDto_share_url_deterministic (a : Artifact)
    (dto : ArtifactShared) (h : toSharedDto a = some dto) :
    (∀ sec, a.accessSecret = some sec → sec ≠ "" →
      dto.share_url = "/v1/artifacts/" ++ a.id ++ "/shared?secret=" ++ sec) ∧
    (a.accessSecret = none ∨ a.accessSecret = some "" → dto.share_url = "") ∧
    (∀ full, toDto a = some full → full.share_url = dto.share_url) := by
  have hdto := toSharedDto_eq_base a dto h
  subst hdto
  refine ⟨?_, ?_, ?_⟩
  · intro sec hsec hne
    show (sharedBase a).share_url = _
    simp only [sharedBase, hsec]
    rw [if_neg hne]
  · intro hs
    show (sharedBase a).share_url = ""
    rcases hs with hs | hs <;> simp [sharedBase, hs]
  · intro full hfull
    unfold toDto at hfull
    rw [h] at hfull
    have hf := Option.some.inj hfull
    subst hf
    rfl

/-- The shared DTO of the concrete shared artifact wArtifact. -/
def wSharedDto : ArtifactShared :=
  { id := "art_0"
    object := "artifact.shared"
    type := ArtifactType.APP
    metadata := []
    created_at := 0
    source_code := some "print(1)"
    share_url := "/v1/artifacts/art_0/shared?secret=s3cr3t"
    name := none
    description := "" }

/-- Witness for the amended C7 at a concrete shared artifact. -/
theorem toSharedDto_share_url_deterministic_holds :
    toSharedDto wArtifact = some wSharedDto ∧
    ((∀ sec, wArtifact.accessSecret = some sec → sec ≠ "" →
      wSharedDto.share_url =
        "/v1/artifacts/" ++ wArtifact.id ++ "/shared?secret=" ++ sec) ∧
    (wArtifact.accessSecret = none ∨ wArtifact.accessSecret = some "" →
      wSharedDto.share_url = "") ∧
    (∀ full, toDto wArtifact = some full →
      full.share_url = wSharedDto.share_url)) :=
  ⟨by decide, toSharedDto_share_url_deterministic wArtifact wSharedDto (by decide)⟩

theorem deleteArtifact_found (s : St) (id : String) (a : Artifact)
    (hfind : findArtifact s id = some a) :
    deleteArtifact id s =
      (Except.ok (createDeleteResponse id "artifact"),
        { s with artifacts := s.artifacts.map fun x =>
            if livePred id x then softDelete s.now x else x }) := by
  unfold deleteArtifact
  rw [hfind]

theorem find?_after_delete (now : Nat) (id : String) (l : List Artifact) :
    (l.map fun x => if livePred id x then softDelete now x else x).find?
      (livePred id) = none := by
  rw [List.find?_eq_none]
  intro y hy
  rcases List.mem_map.mp hy with ⟨x, hx, hfx⟩
  by_cases hq : livePred id x = true
  · rw [if_pos hq] at hfx
    rw [← hfx]
    simp [livePred, softDelete]
  · rw [if_neg hq] at hfx
    rw [← hfx]
    exact hq

theorem findArtifact_after_delete (s : St) (id : String) (a : Artifact)
    (hfind : findArtifact s id = some a) :
    findArtifact (deleteArtifact id s).2 id = none := by
  rw [deleteArtifact_found s id a hfind]
  unfold findArtifact
  exact find?_after_delete s.now id s.artifacts

theorem readArtifact_none (s : St) (id : String)
    (h : findArtifact s id = none) :
    readArtifact id s = Except.error notFoundError := by
  unfold readArtifact
  rw [h]

/-- Claim C8: deleteArtifact returns a confirmation referencing the id and
the resource kind artifact, a subsequent read of the same id fails with
NotFound, and yet the record is still present, merely marked with the
deletion timestamp. -/
theorem deleteArtifact_soft (s : St) (id : String) (a : Artifact)
    (hfind : findArtifact s id = some a) :
    (deleteArtifact id s).1 = Except.ok (createDeleteResponse id "artifact") ∧
    (createDeleteResponse id "artifact").id = id ∧
    (createDeleteResponse id "artifact").object = "artifact" ∧
    (createDeleteResponse id "artifact").deleted = true ∧
    readArtifact id (deleteArtifact id s).2 = Except.error notFoundError ∧
    (∃ a1 ∈ (deleteArtifact id s).2.artifacts, a1.id = id ∧
      a1.deletedAt = some s.now) := by
  have hfind0 : s.artifacts.find? (livePred id) = some a := hfind
  have hp := List.find?_some hfind0
  have hmem := List.mem_of_find?_eq_some hfind0
  refine ⟨by rw [deleteArtifact_found s id a hfind], rfl, rfl, rfl,
    readArtifact_none _ _ (findArtifact_after_delete s id a hfind), ?_⟩
  rw [deleteArtifact_found s id a hfind]
  have hmm : softDelete s.now a ∈ s.artifacts.map
      (fun x => if livePred id x then softDelete s.now x else x) := by
    have h0 := List.mem_map_of_mem
      (fun x => if livePred id x then softDelete s.now x else x) hmem
    simpa [hp] using h0
  exact ⟨softDelete s.now a, hmm, ((livePred_iff id a).mp hp).1, rfl⟩

/-- Witness for C8 at the concrete state wSt. -/
theorem deleteArtifact_soft_holds :
    findArtifact wSt "art_0" = some wArtifact ∧
    ((deleteArtifact "art_0" wSt).1 =
        Except.ok (createDeleteResponse "art_0" "artifact") ∧
    (createDeleteResponse "art_0" "artifact").id = "art_0" ∧
    (createDeleteResponse "art_0" "artifact").object = "artifact" ∧
    (createDeleteResponse "art_0" "artifact").deleted = true ∧
    readArtifact "art_0" (deleteArtifact "art_0" wSt).2 =
      Except.error notFoundError ∧
    (∃ a1 ∈ (deleteArtifact "art_0" wSt).2.artifacts, a1.id = "art_0" ∧
      a1.deletedAt = some 5)) :=
  ⟨by decide, deleteArtifact_soft wSt "art_0" wArtifact (by decide)⟩

/-- Claim C10: toSharedDto normalizes absent optional fields, replacing
absent metadata with the empty map and an absent description with the empty
string, and toDto adds exactly the object tag and the thread and message
ids on top of the shared shape, leaving every shared field unchanged. -/
theorem toSharedDto_normalizes (a : Artifact) (dto : ArtifactShared)
    (h : toSharedDto a = some dto) :
    (a.metadata = none → dto.metadata = []) ∧
    (a.description = none → dto.description = "") ∧
    dto.object = "artifact.shared" ∧
    (∀ full, toDto a = some full →
      full.object = "artifact" ∧ full.thread_id = a.threadId ∧
      full.message_id = a.messageId ∧ full.id = dto.id ∧
      full.type = dto.type ∧ full.metadata = dto.metadata ∧
      full.created_at = dto.created_at ∧ full.source_code = dto.source_code ∧
      full.share_url = dto.share_url ∧ full.name = dto.name ∧
      full.description = dto.description) := by
  have hdto := toSharedDto_eq_base a dto h
  subst hdto
  refine ⟨?_, ?_, rfl, ?_⟩
  · intro hm
    show (sharedBase a).metadata = []
    simp [sharedBase, hm]
  · intro hd
    show (sharedBase a).description = ""
    simp [sharedBase, hd]
  · intro full hfull
    unfold toDto at hfull
    rw [h] at hfull
    have hf := Option.some.inj hfull
    subst hf
    exact ⟨rfl, rfl, rfl, rfl, rfl, rfl, rfl, rfl, rfl, rfl, rfl⟩

/-- Witness for C10 at a concrete artifact with absent metadata and
description. -/
theorem toSharedDto_normalizes_holds :
    toSharedDto wArtifact = some wSharedDto ∧
    ((wArtifact.metadata = none → wSharedDto.metadata = []) ∧
    (wArtifact.description = none → wSharedDto.description = "") ∧
    wSharedDto.object = "artifact.shared" ∧
    (∀ full, toDto wArtifact = some full →
      full.object = "artifact" ∧ full.thread_id = wArtifact.threadId ∧
      full.message_id = wArtifact.messageId ∧ full.id = wSharedDto.id ∧
      full.type = wSharedDto.type ∧ full.metadata = wSharedDto.metadata ∧
      full.created_at = wSharedDto.created_at ∧
      full.source_code = wSharedDto.source_code ∧
      full.share_url = wSharedDto.share_url ∧ full.name = wSharedDto.name ∧
      full.description = wSharedDto.description)) :=
  ⟨by decide, toSharedDto_normalizes wArtifact wSharedDto (by decide)⟩
